import Mathlib

/-!
Shallow embedding of the client-side session / view-state store of the
hits-protothon frontend (the zustand `useStore` in `frontend/src/store`).
The extraction result payload is opaque to the store, so the state is
polymorphic in the payload type `α`.  Each store operation from the source
becomes a pure function `StoreState α → StoreState α`; the id produced by
`Math.random().toString(36).substring(2, 9)` in `uploadFile` is modelled as
an oracle argument, since the store itself imposes no structure on it.
-/

/-- Metadata recorded for one uploaded file: `{ id, name, date }`. -/
structure FileRecord where
  id : String
  name : String
  date : String
deriving DecidableEq

/-- One entry of the session list: `{ fileId, data }`. -/
structure Session (α : Type) where
  fileId : String
  data : α
deriving DecidableEq

/-- The whole zustand store state, one field per store slot. -/
structure StoreState (α : Type) where
  activeTab : String
  isLoading : Bool
  files : List FileRecord
  sessions : List (Session α)
  currentFile : Option α
  sidebarOpen : Bool
  currentPage : Int
  selectedNodeId : Option String
  pdfViewerOpen : Bool
  pdfViewerUrl : Option String
  pdfViewerTitle : Option String
  pdfViewerPage : Int
deriving DecidableEq

/-- The initial store state, field defaults exactly as in the source. -/
def initialState (α : Type) : StoreState α :=
  { activeTab := "summary"
    isLoading := false
    files := []
    sessions := []
    currentFile := none
    sidebarOpen := true
    currentPage := 1
    selectedNodeId := none
    pdfViewerOpen := false
    pdfViewerUrl := none
    pdfViewerTitle := none
    pdfViewerPage := 1 }

/-- `setActiveTab: (tab) => set({ activeTab: tab })`. -/
def setActiveTab {α : Type} (tab : String) (s : StoreState α) : StoreState α :=
  { s with activeTab := tab }

/-- `setLoading: (status) => set({ isLoading: status })`. -/
def setLoading {α : Type} (status : Bool) (s : StoreState α) : StoreState α :=
  { s with isLoading := status }

/-- `uploadFile`: prepends `{id, name, date}` to `files` and returns `id`.
The string produced by `Math.random().toString(36).substring(2, 9)` is the
`genId` oracle argument; `date` stands for `new Date().toISOString().split("T")[0]`. -/
def uploadFile {α : Type} (genId fileName date : String) (s : StoreState α) :
    String × StoreState α :=
  (genId, { s with files := { id := genId, name := fileName, date := date } :: s.files })

/-- `addSession: (fileId, data) => set(s => ({ sessions: [...s.sessions, {fileId, data}],
currentFile: data, currentPage: 1 }))`. -/
def addSession {α : Type} (fileId : String) (data : α) (s : StoreState α) : StoreState α :=
  { s with
    sessions := s.sessions ++ [{ fileId := fileId, data := data }]
    currentFile := some data
    currentPage := 1 }

/-- `loadSession: (fileId)`: `sessions.find(s => s.fileId === fileId)`; on a hit
sets `currentFile` and `currentPage: 1`, otherwise does nothing. -/
def loadSession {α : Type} (fileId : String) (s : StoreState α) : StoreState α :=
  match s.sessions.find? (fun t => t.fileId == fileId) with
  | some session => { s with currentFile := some session.data, currentPage := 1 }
  | none => s

/-- `setCurrentFile: (data) => set({ currentFile: data, currentPage: 1 })`. -/
def setCurrentFile {α : Type} (data : α) (s : StoreState α) : StoreState α :=
  { s with currentFile := some data, currentPage := 1 }

/-- `toggleSidebar: () => set(s => ({ sidebarOpen: !s.sidebarOpen }))`. -/
def toggleSidebar {α : Type} (s : StoreState α) : StoreState α :=
  { s with sidebarOpen := !s.sidebarOpen }

/-- `setCurrentPage: (page) => set({ currentPage: page })`. -/
def setCurrentPage {α : Type} (page : Int) (s : StoreState α) : StoreState α :=
  { s with currentPage := page }

/-- `setSelectedNodeId: (id) => set({ selectedNodeId: id })`. -/
def setSelectedNodeId {α : Type} (id : Option String) (s : StoreState α) : StoreState α :=
  { s with selectedNodeId := id }

/-- `openPDFViewer(url, title, page)` with the page argument supplied. -/
def openPDFViewer {α : Type} (url title : String) (page : Int) (s : StoreState α) :
    StoreState α :=
  { s with
    pdfViewerOpen := true
    pdfViewerUrl := some url
    pdfViewerTitle := some title
    pdfViewerPage := page }

/-- `openPDFViewer(url, title)` with the page argument omitted: the source
declares the parameter as `page = 1`, so the call is `openPDFViewer` at page 1. -/
def openPDFViewerDefault {α : Type} (url title : String) (s : StoreState α) : StoreState α :=
  openPDFViewer url title 1 s

/-- `closePDFViewer: () => set({ pdfViewerOpen: false, pdfViewerUrl: null,
pdfViewerTitle: null, pdfViewerPage: 1 })`. -/
def closePDFViewer {α : Type} (s : StoreState α) : StoreState α :=
  { s with
    pdfViewerOpen := false
    pdfViewerUrl := none
    pdfViewerTitle := none
    pdfViewerPage := 1 }

/-- One store mutation call, with its arguments (the `genId` of `uploadFile`
is the oracle output of the random id generator for that call). -/
inductive Op (α : Type) where
  | setActiveTab (tab : String)
  | setLoading (status : Bool)
  | uploadFile (genId fileName date : String)
  | addSession (fileId : String) (data : α)
  | loadSession (fileId : String)
  | setCurrentFile (data : α)
  | toggleSidebar
  | setCurrentPage (page : Int)
  | setSelectedNodeId (id : Option String)
  | openPDFViewer (url title : String) (page : Int)
  | openPDFViewerDefault (url title : String)
  | closePDFViewer
deriving DecidableEq

/-- Apply one store operation to a state. -/
def applyOp {α : Type} : Op α → StoreState α → StoreState α
  | Op.setActiveTab tab, s => setActiveTab tab s
  | Op.setLoading status, s => setLoading status s
  | Op.uploadFile g n d, s => (uploadFile g n d s).2
  | Op.addSession fid data, s => addSession fid data s
  | Op.loadSession fid, s => loadSession fid s
  | Op.setCurrentFile data, s => setCurrentFile data s
  | Op.toggleSidebar, s => toggleSidebar s
  | Op.setCurrentPage p, s => setCurrentPage p s
  | Op.setSelectedNodeId i, s => setSelectedNodeId i s
  | Op.openPDFViewer u t p, s => openPDFViewer u t p s
  | Op.openPDFViewerDefault u t, s => openPDFViewerDefault u t s
  | Op.closePDFViewer, s => closePDFViewer s

/-- Run a sequence of store operations from a state. -/
def runOps {α : Type} (ops : List (Op α)) (s : StoreState α) : StoreState α :=
  ops.foldl (fun t op => applyOp op t) s

/-- Run a sequence of `uploadFile` calls, each given by
`(genId, fileName, date)`, collecting the returned ids in call order. -/
def runUploads {α : Type} (calls : List (String × String × String)) (s : StoreState α) :
    List String × StoreState α :=
  match calls with
  | [] => ([], s)
  | c :: rest =>
    let r := uploadFile c.1 c.2.1 c.2.2 s
    let rs := runUploads rest r.2
    (r.1 :: rs.1, rs.2)

/-! ## Helper lemmas -/

/-- If `l` holds a match for `p`, `loadSession`-style lookup finds one. -/
theorem find?_isSome_of_mem {α : Type} (l : List (Session α)) (id : String)
    (t : Session α) (ht : t ∈ l) (hid : t.fileId = id) :
    (l.find? (fun u => u.fileId == id)).isSome := by
  rw [List.find?_isSome]
  exact ⟨t, ht, by simp [hid]⟩

/-- If no element of `l` matches, the first match in `l ++ [a, b]` where both
`a` and `b` match the key is `a`. -/
theorem find?_append_two {α : Type} (l : List (Session α)) (id : String) (d1 d2 : α)
    (h : ∀ t ∈ l, t.fileId ≠ id) :
    ((l ++ [Session.mk id d1, Session.mk id d2]).find? (fun u => u.fileId == id)) =
      some (Session.mk id d1) := by
  induction l with
  | nil => simp [List.find?]
  | cons t l ih =>
    have hne : t.fileId ≠ id := h t (List.mem_cons_self t l)
    have : (t.fileId == id) = false := by simpa using hne
    simp only [List.cons_append, List.find?, this]
    exact ih (fun u hu => h u (List.mem_cons_of_mem t hu))

/-! ## Claim theorems -/

/-- Claim C4: every document-switching operation sets `currentFile` and resets
`currentPage` to 1 in the same atomic step (one store mutation), for every prior
state: `addSession` and `setCurrentFile` unconditionally, and `loadSession`
whenever some session matches the requested id (a hit). -/
theorem C4_doc_switch_resets_page {α : Type} (s : StoreState α) (id : String) (d : α) :
    ((addSession id d s).currentFile = some d ∧ (addSession id d s).currentPage = 1) ∧
    ((setCurrentFile d s).currentFile = some d ∧ (setCurrentFile d s).currentPage = 1) ∧
    (∀ t ∈ s.sessions, t.fileId = id →
      (loadSession id s).currentFile =
          Option.map Session.data (s.sessions.find? (fun u => u.fileId == id)) ∧
        (loadSession id s).currentPage = 1) := by
  refine ⟨⟨rfl, rfl⟩, ⟨rfl, rfl⟩, ?_⟩
  intro t ht hid
  have hsome := find?_isSome_of_mem s.sessions id t ht hid
  obtain ⟨found, hfound⟩ := Option.isSome_iff_exists.mp hsome
  constructor <;> simp [loadSession, hfound]

/-- Witness for C4 at a concrete store holding one session, with the hit
condition of the `loadSession` part discharged at that session. -/
theorem C4_witness :
    ((addSession "g" (7 : Nat) (addSession "g" 3 (initialState Nat))).currentFile = some 7 ∧
      (addSession "g" (7 : Nat) (addSession "g" 3 (initialState Nat))).currentPage = 1) ∧
    ((setCurrentFile (7 : Nat) (addSession "g" 3 (initialState Nat))).currentFile = some 7 ∧
      (setCurrentFile (7 : Nat) (addSession "g" 3 (initialState Nat))).currentPage = 1) ∧
    ((loadSession "g" (addSession "g" 3 (initialState Nat))).currentFile =
        Option.map Session.data
          ((addSession "g" 3 (initialState Nat)).sessions.find? (fun u => u.fileId == "g")) ∧
      (loadSession "g" (addSession "g" 3 (initialState Nat))).currentPage = 1) :=
  ⟨(C4_doc_switch_resets_page (addSession "g" 3 (initialState Nat)) "g" 7).1,
    (C4_doc_switch_resets_page (addSession "g" 3 (initialState Nat)) "g" 7).2.1,
    (C4_doc_switch_resets_page (addSession "g" 3 (initialState Nat)) "g" 7).2.2
      (Session.mk "g" 3) (by decide) (by decide)⟩

/-- Claim C5: `loadSession` on a `fileId` with no matching session is a no-op:
no error, and the entire store state is unchanged. -/
theorem C5_loadSession_miss_noop {α : Type} (s : StoreState α) (id : String)
    (h : ∀ t ∈ s.sessions, t.fileId ≠ id) :
    loadSession id s = s := by
  have hn : s.sessions.find? (fun u => u.fileId == id) = none := by
    rw [List.find?_eq_none]
    intro t ht
    simpa using h t ht
  simp [loadSession, hn]

/-- Witness for C5: loading an unknown id in the empty initial store changes nothing. -/
theorem C5_witness : loadSession "x" (initialState Nat) = initialState Nat :=
  C5_loadSession_miss_noop (initialState Nat) "x" (by simp [initialState])

/-- Claim C6: `closePDFViewer` always yields exactly
`{open:false, url:null, title:null, page:1}` on the overlay slice, for every prior
overlay state, and is idempotent. -/
theorem C6_closePDFViewer_reset_idempotent {α : Type} (s : StoreState α) :
    (closePDFViewer s).pdfViewerOpen = false ∧
    (closePDFViewer s).pdfViewerUrl = none ∧
    (closePDFViewer s).pdfViewerTitle = none ∧
    (closePDFViewer s).pdfViewerPage = 1 ∧
    closePDFViewer (closePDFViewer s) = closePDFViewer s :=
  ⟨rfl, rfl, rfl, rfl, rfl⟩

/-- Claim C7: `openPDFViewer` with the page argument omitted opens at page 1 for
every prior overlay state; in particular open at page 3, close, then open with
default page yields page 1 (no leakage across opens). -/
theorem C7_open_default_page_one {α : Type} (s s2 : StoreState α) (url title : String) :
    (openPDFViewerDefault url title s).pdfViewerPage = 1 ∧
    (openPDFViewerDefault "b.pdf" "Doc2"
        (closePDFViewer (openPDFViewer "a.pdf" "Doc" 3 s2))).pdfViewerPage = 1 :=
  ⟨rfl, rfl⟩

/-- Claim C9: `addSession` leaves `activeTab` and `selectedNodeId` unchanged —
it modifies only `sessions`, `currentFile`, and `currentPage` (every other field
is also framed). -/
theorem C9_addSession_frame {α : Type} (s : StoreState α) (fileId : String) (d : α) :
    (addSession fileId d s).activeTab = s.activeTab ∧
    (addSession fileId d s).selectedNodeId = s.selectedNodeId ∧
    (addSession fileId d s).files = s.files ∧
    (addSession fileId d s).sidebarOpen = s.sidebarOpen ∧
    (addSession fileId d s).isLoading = s.isLoading ∧
    (addSession fileId d s).pdfViewerOpen = s.pdfViewerOpen ∧
    (addSession fileId d s).pdfViewerUrl = s.pdfViewerUrl ∧
    (addSession fileId d s).pdfViewerTitle = s.pdfViewerTitle ∧
    (addSession fileId d s).pdfViewerPage = s.pdfViewerPage :=
  ⟨rfl, rfl, rfl, rfl, rfl, rfl, rfl, rfl, rfl⟩

/-- Claim C1 counterexample: `sessions.find` returns the FIRST match and sessions
are appended at the end, so after `addSession("f",1)` then `addSession("f",2)`,
`loadSession("f")` sets `currentFile` to 1 (the oldest), not 2. -/
theorem C1_counterexample :
    (loadSession "f"
        (addSession "f" (2 : Nat) (addSession "f" 1 (initialState Nat)))).currentFile
      ≠ some 2 ∧
    (loadSession "f"
        (addSession "f" (2 : Nat) (addSession "f" 1 (initialState Nat)))).currentFile
      = some 1 := by
  constructor
  · decide
  · decide

/-- Claim C1 (amended): when multiple sessions share a `fileId`, lookup resolves
to the EARLIEST appended one (first-write-wins): if no session for `id` existed
before, `loadSession(id)` after `addSession(id,d1)`, `addSession(id,d2)` sets
`currentFile` to `d1`. -/
theorem C1_first_write_wins {α : Type} (s : StoreState α) (id : String) (d1 d2 : α)
    (h : ∀ t ∈ s.sessions, t.fileId ≠ id) :
    (loadSession id (addSession id d2 (addSession id d1 s))).currentFile = some d1 := by
  have hs : (addSession id d2 (addSession id d1 s)).sessions
      = s.sessions ++ [Session.mk id d1, Session.mk id d2] := by
    simp [addSession]
  simp [loadSession, hs, find?_append_two s.sessions id d1 d2 h]

/-- Witness for the amended C1 at the empty initial store. -/
theorem C1_witness :
    (loadSession "f"
        (addSession "f" (4 : Nat) (addSession "f" 3 (initialState Nat)))).currentFile
      = some 3 :=
  C1_first_write_wins (initialState Nat) "f" 3 4 (by simp [initialState])

/-- Claim C2 counterexample: `setCurrentPage` stores its argument unvalidated, so
the reachable state after `setCurrentPage(0)` has `currentPage = 0 < 1`. -/
theorem C2_counterexample :
    ¬ (1 ≤ (runOps [Op.setCurrentPage 0] (initialState Nat)).currentPage) := by
  decide

/-- A single store operation keeps `currentPage ≥ 1`, provided that if it is a
`setCurrentPage` call its argument is ≥ 1. -/
theorem applyOp_page_ge_one {α : Type} (op : Op α) (s : StoreState α)
    (hs : 1 ≤ s.currentPage) (hop : ∀ p : Int, op = Op.setCurrentPage p → 1 ≤ p) :
    1 ≤ (applyOp op s).currentPage := by
  cases op with
  | setActiveTab tab => simpa [applyOp, setActiveTab] using hs
  | setLoading b => simpa [applyOp, setLoading] using hs
  | uploadFile g n d => simpa [applyOp, uploadFile] using hs
  | addSession fid data => simp [applyOp, addSession]
  | loadSession fid =>
    simp only [applyOp, loadSession]
    split
    · simp
    · exact hs
  | setCurrentFile data => simp [applyOp, setCurrentFile]
  | toggleSidebar => simpa [applyOp, toggleSidebar] using hs
  | setCurrentPage p => simpa [applyOp, setCurrentPage] using hop p rfl
  | setSelectedNodeId i => simpa [applyOp, setSelectedNodeId] using hs
  | openPDFViewer u t p => simpa [applyOp, openPDFViewer] using hs
  | openPDFViewerDefault u t => simpa [applyOp, openPDFViewerDefault, openPDFViewer] using hs
  | closePDFViewer => simpa [applyOp, closePDFViewer] using hs

/-- `currentPage ≥ 1` is preserved by every operation sequence whose
`setCurrentPage` arguments are all ≥ 1. -/
theorem runOps_page_ge_one {α : Type} (ops : List (Op α)) (s : StoreState α)
    (hs : 1 ≤ s.currentPage) (h : ∀ p : Int, Op.setCurrentPage p ∈ ops → 1 ≤ p) :
    1 ≤ (runOps ops s).currentPage := by
  induction ops generalizing s with
  | nil => simpa [runOps] using hs
  | cons op rest ih =>
    simp only [runOps, List.foldl_cons] at *
    exact ih (applyOp op s)
      (applyOp_page_ge_one op s hs (fun p hp => h p (by simp [hp])))
      (fun p hp => h p (List.mem_cons_of_mem _ hp))

/-- Claim C2 (amended): `currentPage ≥ 1` holds in every state reachable from the
initial state by operation sequences in which every `setCurrentPage` argument is
≥ 1; `setCurrentPage` itself stores its argument unvalidated, so the invariant is
NOT preserved for arbitrary inputs. -/
theorem C2_page_invariant_guarded {α : Type} (ops : List (Op α))
    (h : ∀ p : Int, Op.setCurrentPage p ∈ ops → 1 ≤ p) :
    1 ≤ (runOps ops (initialState α)).currentPage ∧
    ∀ (p : Int) (s : StoreState α), (setCurrentPage p s).currentPage = p := by
  constructor
  · exact runOps_page_ge_one ops (initialState α) (by simp [initialState]) h
  · intro p s
    rfl

/-- Witness for the amended C2 on a concrete two-operation sequence. -/
theorem C2_witness :
    1 ≤ (runOps ([Op.setCurrentPage 5, Op.toggleSidebar] : List (Op Nat))
        (initialState Nat)).currentPage ∧
    ∀ (p : Int) (s : StoreState Nat), (setCurrentPage p s).currentPage = p :=
  C2_page_invariant_guarded [Op.setCurrentPage 5, Op.toggleSidebar]
    (by
      intro p hp
      simp at hp
      omega)

/-- Claim C3 counterexample: `addSession` performs no emptiness check on `fileId`;
with an empty `fileId` it is NOT a no-op — the store changes: a session is
appended and `currentFile` becomes the new data. -/
theorem C3_counterexample :
    addSession "" (5 : Nat) (initialState Nat) ≠ initialState Nat ∧
    (addSession "" (5 : Nat) (initialState Nat)).currentFile = some 5 ∧
    (addSession "" (5 : Nat) (initialState Nat)).sessions.length = 1 := by
  refine ⟨by decide, rfl, rfl⟩

/-- Claim C3 (amended): `addSession` with an empty `fileId` raises no error but is
not a no-op: it behaves exactly as for any other id — it appends the session,
switches `currentFile` to the data, resets `currentPage` to 1, and grows the
session list by one. -/
theorem C3_addSession_empty_id {α : Type} (s : StoreState α) (d : α) :
    (addSession "" d s).sessions = s.sessions ++ [Session.mk "" d] ∧
    (addSession "" d s).currentFile = some d ∧
    (addSession "" d s).currentPage = 1 ∧
    (addSession "" d s).sessions.length = s.sessions.length + 1 := by
  refine ⟨rfl, rfl, rfl, by simp [addSession]⟩

/-- The ids returned by a sequence of `uploadFile` calls are exactly the oracle
outputs of the random generator, one per call, in call order. -/
theorem runUploads_ids {α : Type} (calls : List (String × String × String))
    (s : StoreState α) :
    (runUploads calls s).1 = calls.map Prod.fst := by
  induction calls generalizing s with
  | nil => rfl
  | cons c rest ih => simp [runUploads, uploadFile, ih]

/-- Claim C8 counterexample: `uploadFile` draws its id from `Math.random` with no
uniqueness check; modelling the generator as an oracle, a repeated oracle output
makes two calls return the same id, so ids are not pairwise distinct. -/
theorem C8_counterexample :
    ¬ ((runUploads [("aaa", "f1", "d1"), ("aaa", "f2", "d2")]
        (initialState Nat)).1.Pairwise (· ≠ ·)) := by
  decide

/-- Claim C8 (amended): returned ids equal the random-generator outputs one-for-one,
so ids are pairwise distinct exactly when the generator outputs for the call
sequence are; the store itself enforces no uniqueness. -/
theorem C8_ids_distinct_iff_oracle {α : Type} (calls : List (String × String × String))
    (s : StoreState α) (h : (calls.map Prod.fst).Pairwise (· ≠ ·)) :
    (runUploads calls s).1 = calls.map Prod.fst ∧
    (runUploads calls s).1.Pairwise (· ≠ ·) := by
  refine ⟨runUploads_ids calls s, ?_⟩
  rw [runUploads_ids calls s]
  exact h

/-- Witness for the amended C8 on two calls with distinct oracle outputs. -/
theorem C8_witness :
    (runUploads [("a", "f1", "d1"), ("b", "f2", "d2")] (initialState Nat)).1
      = [("a", "f1", "d1"), ("b", "f2", "d2")].map Prod.fst ∧
    (runUploads [("a", "f1", "d1"), ("b", "f2", "d2")]
        (initialState Nat)).1.Pairwise (· ≠ ·) :=
  C8_ids_distinct_iff_oracle [("a", "f1", "d1"), ("b", "f2", "d2")] (initialState Nat)
    (by decide)
